import Mathlib

/-!
Verification of the PostgreSQL batch-export pipeline
(posthog/temporal/batch_exports/postgres_batch_export.py).

The Python source is shallowly embedded: byte strings become `List Nat`
(one entry per byte), Python `str` values become `List Char` or `String`,
stateful code becomes explicit state passing, and fallible code returns
`Except`.
-/

/-! ## Byte-level JSON sanitizer (`remove_invalid_json` and its regexes)

The source compiles three regexes over bytes:

  NULL_UNICODE_PATTERN        = (?<!\\)\\u0000
  UNPAIRED_SURROGATE_PATTERN  = (\\u[dD][89A-Fa-f][0-9A-Fa-f]{2}\\u[dD][c-fC-F][0-9A-Fa-f]{2})|(\\u[dD][89A-Fa-f][0-9A-Fa-f]{2})
  UNPAIRED_SURROGATE_PATTERN_2= (\\u[dD][89A-Fa-f][0-9A-Fa-f]{2}\\u[dD][c-fC-F][0-9A-Fa-f]{2})|(\\u[dD][c-fC-F][0-9A-Fa-f]{2})

and `remove_invalid_json` applies, in order,
`NULL_UNICODE_PATTERN.sub(b"")`, `UNPAIRED_SURROGATE_PATTERN.sub(rb"\1")`,
`UNPAIRED_SURROGATE_PATTERN_2.sub(rb"\1")`.

We embed each `re.sub` as a left-to-right, leftmost-match, non-overlapping
scan.  Replacement `\1` keeps the match when the first (pair) alternative
matched and deletes it when only the second alternative matched.  The
negative lookbehind of the NUL pattern inspects the byte of the *original*
input just before the current position, which the scan threads through as
`prev`.  Bytes: 92 is a backslash, 117 is the letter u, 48 is the digit 0.
-/

/-- Is the byte a hex digit, the regex class [0-9A-Fa-f]. -/
def isHexByte (b : Nat) : Bool :=
  decide ((48 ≤ b ∧ b ≤ 57) ∨ (65 ≤ b ∧ b ≤ 70) ∨ (97 ≤ b ∧ b ≤ 102))

/-- The regex class [dD]. -/
def isDByte (b : Nat) : Bool :=
  decide (b = 68 ∨ b = 100)

/-- The regex class [89A-Fa-f] (second hex digit of the first unit of the
"pair" alternative and of UNPAIRED_SURROGATE_PATTERN's lone alternative). -/
def isSurrSecondByte (b : Nat) : Bool :=
  decide (b = 56 ∨ b = 57 ∨ (65 ≤ b ∧ b ≤ 70) ∨ (97 ≤ b ∧ b ≤ 102))

/-- The regex class [c-fC-F] (second hex digit of a low surrogate). -/
def isLowSecondByte (b : Nat) : Bool :=
  decide ((67 ≤ b ∧ b ≤ 70) ∨ (99 ≤ b ∧ b ≤ 102))

/-- Six bytes matching `\\u[dD][89A-Fa-f][0-9A-Fa-f]{2}`. -/
def isSurrUnit (b1 b2 b3 b4 b5 b6 : Nat) : Bool :=
  decide (b1 = 92) && decide (b2 = 117) && isDByte b3 && isSurrSecondByte b4 &&
    isHexByte b5 && isHexByte b6

/-- Six bytes matching `\\u[dD][c-fC-F][0-9A-Fa-f]{2}` (a low surrogate). -/
def isLowUnit (b1 b2 b3 b4 b5 b6 : Nat) : Bool :=
  decide (b1 = 92) && decide (b2 = 117) && isDByte b3 && isLowSecondByte b4 &&
    isHexByte b5 && isHexByte b6

/-- One pass of `NULL_UNICODE_PATTERN.sub(b"", data)`: delete every
occurrence of the bytes of `\u0000` whose preceding byte in the original
input is not a backslash.  `prev` is that preceding byte (`none` at the
start of the input). -/
def nullUnicodeSub (prev : Option Nat) : List Nat → List Nat
  | 92 :: 117 :: 48 :: 48 :: 48 :: 48 :: rest =>
    if prev = some 92 then
      92 :: nullUnicodeSub (some 92) (117 :: 48 :: 48 :: 48 :: 48 :: rest)
    else
      nullUnicodeSub (some 48) rest
  | b :: rest => b :: nullUnicodeSub (some b) rest
  | [] => []

/-- One pass of `UNPAIRED_SURROGATE_PATTERN.sub(rb"\1", data)`.  At each
position: if the pair alternative (surrogate unit followed by low unit)
matches, the whole match is kept (`\1`); otherwise, if the lone alternative
(a surrogate unit) matches, the match is deleted (`\1` is empty); otherwise
the scan advances one byte. -/
def unpairedSurrogateSub1 : List Nat → List Nat
  | b1 :: b2 :: b3 :: b4 :: b5 :: b6 :: c1 :: c2 :: c3 :: c4 :: c5 :: c6 :: rest2 =>
    if isSurrUnit b1 b2 b3 b4 b5 b6 then
      if isLowUnit c1 c2 c3 c4 c5 c6 then
        b1 :: b2 :: b3 :: b4 :: b5 :: b6 :: c1 :: c2 :: c3 :: c4 :: c5 :: c6 ::
          unpairedSurrogateSub1 rest2
      else
        unpairedSurrogateSub1 (c1 :: c2 :: c3 :: c4 :: c5 :: c6 :: rest2)
    else
      b1 :: unpairedSurrogateSub1
        (b2 :: b3 :: b4 :: b5 :: b6 :: c1 :: c2 :: c3 :: c4 :: c5 :: c6 :: rest2)
  | b1 :: b2 :: b3 :: b4 :: b5 :: b6 :: rest =>
    if isSurrUnit b1 b2 b3 b4 b5 b6 then
      unpairedSurrogateSub1 rest
    else
      b1 :: unpairedSurrogateSub1 (b2 :: b3 :: b4 :: b5 :: b6 :: rest)
  | b :: rest => b :: unpairedSurrogateSub1 rest
  | [] => []

/-- One pass of `UNPAIRED_SURROGATE_PATTERN_2.sub(rb"\1", data)`.  At each
position: if the pair alternative matches it is kept; otherwise, if the
lone low-surrogate alternative matches, it is deleted; otherwise the scan
advances one byte.  (A surrogate unit that is not a low unit and is not
followed by a low unit matches neither alternative of this pattern, so the
scan advances a single byte there.) -/
def unpairedSurrogateSub2 : List Nat → List Nat
  | b1 :: b2 :: b3 :: b4 :: b5 :: b6 :: c1 :: c2 :: c3 :: c4 :: c5 :: c6 :: rest2 =>
    if isSurrUnit b1 b2 b3 b4 b5 b6 then
      if isLowUnit c1 c2 c3 c4 c5 c6 then
        b1 :: b2 :: b3 :: b4 :: b5 :: b6 :: c1 :: c2 :: c3 :: c4 :: c5 :: c6 ::
          unpairedSurrogateSub2 rest2
      else
        if isLowUnit b1 b2 b3 b4 b5 b6 then
          unpairedSurrogateSub2 (c1 :: c2 :: c3 :: c4 :: c5 :: c6 :: rest2)
        else
          b1 :: unpairedSurrogateSub2
            (b2 :: b3 :: b4 :: b5 :: b6 :: c1 :: c2 :: c3 :: c4 :: c5 :: c6 :: rest2)
    else
      b1 :: unpairedSurrogateSub2
        (b2 :: b3 :: b4 :: b5 :: b6 :: c1 :: c2 :: c3 :: c4 :: c5 :: c6 :: rest2)
  | b1 :: b2 :: b3 :: b4 :: b5 :: b6 :: rest =>
    if isLowUnit b1 b2 b3 b4 b5 b6 then
      unpairedSurrogateSub2 rest
    else
      b1 :: unpairedSurrogateSub2 (b2 :: b3 :: b4 :: b5 :: b6 :: rest)
  | b :: rest => b :: unpairedSurrogateSub2 rest
  | [] => []

/-- `remove_invalid_json`: the three substitutions applied in the order of
the source. -/
def remove_invalid_json (data : List Nat) : List Nat :=
  unpairedSurrogateSub2 (unpairedSurrogateSub1 (nullUnicodeSub none data))

/-- Does `NULL_UNICODE_PATTERN` have a match anywhere in the input, given
the original byte `prev` just before it?  Mirrors the scan of
`nullUnicodeSub`. -/
def hasNullUnicodeMatch (prev : Option Nat) : List Nat → Bool
  | 92 :: 117 :: 48 :: 48 :: 48 :: 48 :: rest =>
    if prev = some 92 then
      hasNullUnicodeMatch (some 92) (117 :: 48 :: 48 :: 48 :: 48 :: rest)
    else
      true
  | b :: rest => hasNullUnicodeMatch (some b) rest
  | [] => false

/-- Does a surrogate unit `\u[dD][89A-Fa-f][0-9A-Fa-f]{2}` start at any
position of the input?  Both surrogate patterns have a match somewhere in
the input if and only if this holds (every alternative of either pattern
starts with such a unit, a low unit being a special case of it). -/
def hasSurrUnitAt : List Nat → Bool
  | b1 :: b2 :: b3 :: b4 :: b5 :: b6 :: rest =>
    isSurrUnit b1 b2 b3 b4 b5 b6 || hasSurrUnitAt (b2 :: b3 :: b4 :: b5 :: b6 :: rest)
  | _ :: rest => hasSurrUnitAt rest
  | [] => false

/-! ## Staging table name (`insert_into_postgres_activity`, lines 694-702)

The activity computes
`data_interval_end_str = data_interval_end.strftime("%Y-%m-%d_%H-%M-%S")` and

    stagle_table_name = (
        f"stage_{inputs.table_name}_{data_interval_end_str}_{inputs.team_id}"
        if requires_merge
        else inputs.table_name
    )[:63]

Python strings are sequences of code points, so `[:63]` keeps the first 63
characters; we embed `str` as `List Char` and `[:63]` as `List.take 63`. -/

/-- A parsed `datetime` as far as `strftime("%Y-%m-%d_%H-%M-%S")` needs. -/
structure PyDateTime where
  year : Nat
  month : Nat
  day : Nat
  hour : Nat
  minute : Nat
  second : Nat

/-- The decimal digit character for `n % 10`. -/
def digitChar (n : Nat) : Char :=
  if n % 10 = 0 then '0' else if n % 10 = 1 then '1' else if n % 10 = 2 then '2'
  else if n % 10 = 3 then '3' else if n % 10 = 4 then '4' else if n % 10 = 5 then '5'
  else if n % 10 = 6 then '6' else if n % 10 = 7 then '7' else if n % 10 = 8 then '8'
  else '9'

/-- Decimal digits of `n`, most significant first, via an always-sufficient
fuel of `n + 1` division steps. -/
def natDigitsGo : Nat → Nat → List Char → List Char
  | 0, _, acc => acc
  | fuel + 1, n, acc =>
    if n < 10 then digitChar n :: acc
    else natDigitsGo fuel (n / 10) (digitChar n :: acc)

/-- The decimal representation of `n` (what Python's f-string does to an int). -/
def natDigits (n : Nat) : List Char :=
  natDigitsGo (n + 1) n []

/-- `strftime`'s `%m`/`%d`/`%H`/`%M`/`%S`: zero-padded to two digits. -/
def pad2 (n : Nat) : List Char :=
  if n < 10 then '0' :: natDigits n else natDigits n

/-- `strftime`'s `%Y`: zero-padded to four digits. -/
def pad4 (n : Nat) : List Char :=
  if n < 10 then '0' :: '0' :: '0' :: natDigits n
  else if n < 100 then '0' :: '0' :: natDigits n
  else if n < 1000 then '0' :: natDigits n
  else natDigits n

/-- `data_interval_end.strftime("%Y-%m-%d_%H-%M-%S")`. -/
def strftimeSuffix (d : PyDateTime) : List Char :=
  pad4 d.year ++ '-' :: pad2 d.month ++ '-' :: pad2 d.day ++
    '_' :: pad2 d.hour ++ '-' :: pad2 d.minute ++ '-' :: pad2 d.second

/-- The `stage_` literal of the staging-name f-string. -/
def stageLit : List Char := ['s', 't', 'a', 'g', 'e', '_']

/-- `stagle_table_name` (the variable's name in the source), for a given
`requires_merge`, `inputs.table_name`, parsed `data_interval_end` and
`inputs.team_id`. -/
def stagle_table_name (requiresMerge : Bool) (tableName : List Char)
    (d : PyDateTime) (teamId : Nat) : List Char :=
  (if requiresMerge then
      stageLit ++ tableName ++ '_' :: strftimeSuffix d ++ '_' :: natDigits teamId
    else tableName).take 63

/-- UTF-8 byte length of a Python string embedded as `List Char`. -/
def utf8Len (s : List Char) : Nat :=
  (s.map Char.utf8Size).sum

/-! ## Schema mapping (`get_postgres_fields_from_record_schema`, lines 471-519) -/

/-- The Arrow-like logical types the source inspects: everything
`pa.types.is_*` distinguishes on the path through the function, the
`JsonType` extension type checked with `isinstance`, plus representatives
of types matching none of the predicates (`date32`, `binary`). -/
inductive PaType where
  | string
  | int8
  | int16
  | int32
  | int64
  | uint8
  | uint16
  | uint32
  | uint64
  | float16
  | float32
  | float64
  | boolean
  | timestamp (tz : Option String)
  | list (valueType : PaType)
  | json
  | date32
  | binary
deriving DecidableEq, Repr

/-- `pa.types.is_string`. -/
def PaType.isString : PaType → Bool
  | .string => true
  | _ => false

/-- `isinstance(t, JsonType)`. -/
def PaType.isJson : PaType → Bool
  | .json => true
  | _ => false

/-- `pa.types.is_signed_integer`. -/
def PaType.isSignedInteger : PaType → Bool
  | .int8 | .int16 | .int32 | .int64 => true
  | _ => false

/-- `pa.types.is_unsigned_integer`. -/
def PaType.isUnsignedInteger : PaType → Bool
  | .uint8 | .uint16 | .uint32 | .uint64 => true
  | _ => false

/-- `pa.types.is_int64`. -/
def PaType.isInt64 : PaType → Bool
  | .int64 => true
  | _ => false

/-- `pa.types.is_uint64`. -/
def PaType.isUint64 : PaType → Bool
  | .uint64 => true
  | _ => false

/-- `pa.types.is_floating`. -/
def PaType.isFloating : PaType → Bool
  | .float16 | .float32 | .float64 => true
  | _ => false

/-- `pa.types.is_float64`. -/
def PaType.isFloat64 : PaType → Bool
  | .float64 => true
  | _ => false

/-- `pa.types.is_boolean`. -/
def PaType.isBoolean : PaType → Bool
  | .boolean => true
  | _ => false

/-- `pa.types.is_timestamp`. -/
def PaType.isTimestamp : PaType → Bool
  | .timestamp _ => true
  | _ => false

/-- `pa_field.type.tz` for a timestamp type. -/
def PaType.timestampTz : PaType → Option String
  | .timestamp tz => tz
  | _ => none

/-- `pa.types.is_list`. -/
def PaType.isList : PaType → Bool
  | .list _ => true
  | _ => false

/-- `pa_field.type.value_type` of a list type; the type itself otherwise
(only consulted after `is_list` holds). -/
def PaType.valueType : PaType → PaType
  | .list v => v
  | t => t

/-- A field of a record schema: a name and a type. -/
structure PaField where
  name : String
  type : PaType
deriving DecidableEq, Repr

/-- The `TypeError(f"Unsupported type in field '{name}': '{pa_field.type}'")`
raised by the source, as a structured value. -/
inductive SchemaMapError where
  | unsupportedType (name : String) (type : PaType)
deriving DecidableEq, Repr

/-- The body of the source's loop: the PostgreSQL type for one field,
following the if/elif chain of lines 484-515. -/
def postgresTypeOfField (paField : PaField) (knownJsonColumns : List String) :
    Except SchemaMapError String :=
  if paField.type.isString || paField.type.isJson then
    if paField.name ∈ knownJsonColumns then .ok ("JSONB") else .ok ("TEXT")
  else if paField.type.isSignedInteger || paField.type.isUnsignedInteger then
    if paField.type.isUint64 || paField.type.isInt64 then .ok ("BIGINT")
    else .ok ("INTEGER")
  else if paField.type.isFloating then
    if paField.type.isFloat64 then .ok ("DOUBLE PRECISION") else .ok ("REAL")
  else if paField.type.isBoolean then .ok ("BOOLEAN")
  else if paField.type.isTimestamp then
    if paField.type.timestampTz ≠ none then .ok ("TIMESTAMPTZ")
    else .ok ("TIMESTAMP")
  else if paField.type.isList && paField.type.valueType.isString then
    .ok ("TEXT[]")
  else
    .error (.unsupportedType paField.name paField.type)

/-- `get_postgres_fields_from_record_schema`: map every field of the schema
in order, stopping at the first unsupported type. -/
def get_postgres_fields_from_record_schema (recordSchema : List PaField)
    (knownJsonColumns : List String) : Except SchemaMapError (List (String × String)) :=
  match recordSchema with
  | [] => .ok []
  | f :: rest => do
    let pgType ← postgresTypeOfField f knownJsonColumns
    let tail ← get_postgres_fields_from_record_schema rest knownJsonColumns
    .ok ((f.name, pgType) :: tail)

/-- The claim's reading of the mapping for one field: `string` in the
known-JSON set to JSONB, other `string` to TEXT, int64/uint64 to BIGINT,
other integers to INTEGER, float64 to DOUBLE PRECISION, other floats to
REAL, bool to BOOLEAN, timestamps by presence of a timezone, list of
string to TEXT[], and **any other type** fails with
`UnsupportedType(name, type)`. -/
def claimC4TypeOfField (paField : PaField) (knownJsonColumns : List String) :
    Except SchemaMapError String :=
  match paField.type with
  | .string =>
    if paField.name ∈ knownJsonColumns then .ok ("JSONB") else .ok ("TEXT")
  | .int64 | .uint64 => .ok ("BIGINT")
  | .int8 | .int16 | .int32 | .uint8 | .uint16 | .uint32 => .ok ("INTEGER")
  | .float64 => .ok ("DOUBLE PRECISION")
  | .float16 | .float32 => .ok ("REAL")
  | .boolean => .ok ("BOOLEAN")
  | .timestamp (some _) => .ok ("TIMESTAMPTZ")
  | .timestamp none => .ok ("TIMESTAMP")
  | .list .string => .ok ("TEXT[]")
  | t => .error (.unsupportedType paField.name t)

/-- The claim's reading of the whole mapping, field by field in order. -/
def claimC4Mapping (recordSchema : List PaField) (knownJsonColumns : List String) :
    Except SchemaMapError (List (String × String)) :=
  match recordSchema with
  | [] => .ok []
  | f :: rest => do
    let pgType ← claimC4TypeOfField f knownJsonColumns
    let tail ← claimC4Mapping rest knownJsonColumns
    .ok ((f.name, pgType) :: tail)

/-- The amended per-field mapping: as the claim says, except that the
`JsonType` extension type is handled exactly like `string` (the source
tests `pa.types.is_string(t) or isinstance(t, JsonType)`). -/
def amendedC4TypeOfField (paField : PaField) (knownJsonColumns : List String) :
    Except SchemaMapError String :=
  match paField.type with
  | .string | .json =>
    if paField.name ∈ knownJsonColumns then .ok ("JSONB") else .ok ("TEXT")
  | .int64 | .uint64 => .ok ("BIGINT")
  | .int8 | .int16 | .int32 | .uint8 | .uint16 | .uint32 => .ok ("INTEGER")
  | .float64 => .ok ("DOUBLE PRECISION")
  | .float16 | .float32 => .ok ("REAL")
  | .boolean => .ok ("BOOLEAN")
  | .timestamp (some _) => .ok ("TIMESTAMPTZ")
  | .timestamp none => .ok ("TIMESTAMP")
  | .list .string => .ok ("TEXT[]")
  | t => .error (.unsupportedType paField.name t)

/-- The amended whole-schema mapping. -/
def amendedC4Mapping (recordSchema : List PaField) (knownJsonColumns : List String) :
    Except SchemaMapError (List (String × String)) :=
  match recordSchema with
  | [] => .ok []
  | f :: rest => do
    let pgType ← amendedC4TypeOfField f knownJsonColumns
    let tail ← amendedC4Mapping rest knownJsonColumns
    .ok ((f.name, pgType) :: tail)

/-- The `known_json_columns` the activity passes (line 663). -/
def knownJsonColumnsDefault : List String :=
  ["properties", "set", "set_once", "person_properties"]

/-! ## Merge statement (`PostgreSQLClient.amerge_mutable_tables`, lines 317-397)

psycopg's `sql.Identifier(parts…)` renders as the dot-joined parts, each
double-quoted with internal double quotes doubled; `sql.SQL(sep).join`
renders as the separator-joined renderings; `sql.SQL(template).format`
splices renderings into the template's placeholders.  We embed the rendered
statement directly as a `String`. -/

/-- Render one identifier part the way psycopg quotes it. -/
def pgQuotePart (s : String) : String :=
  "\"" ++ (s.toList.foldr
    (fun c acc => if c = '"' then '"' :: '"' :: acc else c :: acc) []).asString ++ "\""

/-- `sql.Identifier(parts…)`. -/
def pgIdentifier (parts : List String) : String :=
  String.intercalate "." (parts.map pgQuotePart)

/-- A PostgreSQL field as the source passes it around: name and type. -/
abbrev PgField := String × String

/-- The rendered merge statement built by `amerge_mutable_tables` (the
template of lines 370-377 with the composed pieces of lines 333-368
spliced in; `merge_condition` is also built by the source but the template
references no placeholder for it). -/
def amerge_mutable_tables_query (finalTableName stageTableName schema : String)
    (mergeKey updateKey updateWhenMatched : List PgField) : String :=
  let finalTable :=
    if schema.isEmpty then pgIdentifier [finalTableName]
    else pgIdentifier [schema, finalTableName]
  let stageTable :=
    if schema.isEmpty then pgIdentifier [stageTableName]
    else pgIdentifier [schema, stageTableName]
  let updateCondition :=
    String.intercalate " OR "
      (updateKey.map (fun field =>
        "EXCLUDED." ++ pgIdentifier [field.1] ++ " > final." ++ pgIdentifier [field.1]))
  let updateClause :=
    String.intercalate ","
      (updateWhenMatched.map (fun field =>
        pgIdentifier [field.1] ++ " = EXCLUDED." ++ pgIdentifier [field.1]))
  let fieldNames :=
    String.intercalate "," (updateWhenMatched.map (fun field => pgIdentifier [field.1]))
  let conflictFields :=
    String.intercalate "," (mergeKey.map (fun field => pgIdentifier [field.1]))
  "        INSERT INTO " ++ finalTable ++ " AS final (" ++ fieldNames ++ ")\n" ++
  "        SELECT " ++ fieldNames ++ " FROM " ++ stageTable ++ "\n" ++
  "        ON CONFLICT (" ++ conflictFields ++ ") DO UPDATE SET\n" ++
  "            " ++ updateClause ++ "\n" ++
  "        WHERE (" ++ updateCondition ++ ")\n" ++
  "        "

/-- The claim's reading of the WHERE condition: the OR-join, across the
update-key columns, of "the EXCLUDED column strictly greater than the
final row's column". -/
def claimC5UpdateCondition (updateKey : List PgField) : String :=
  String.intercalate " OR "
    (updateKey.map (fun field =>
      "EXCLUDED." ++ pgIdentifier [field.1] ++ " > final." ++ pgIdentifier [field.1]))

/-- Merge configuration the activity derives from the batch-export model
(lines 666-692): whether a merge is required, the merge key, the update
key and the primary key. -/
structure MergeParams where
  requiresMerge : Bool
  mergeKey : List PgField
  updateKey : List PgField
  primaryKey : Option (List PgField)
deriving DecidableEq, Repr

/-- Lines 666-692 of `insert_into_postgres_activity`, as a function of the
batch-export model's name (`none` when `inputs.batch_export_model` is not a
`BatchExportModel`). -/
def resolveMergeParams (batchExportModelName : Option String) : MergeParams :=
  match batchExportModelName with
  | some ("persons") =>
    { requiresMerge := true
      mergeKey := [("team_id", "INT"), ("distinct_id", "TEXT")]
      updateKey := [("person_version", "INT"), ("person_distinct_id_version", "INT")]
      primaryKey := some [("team_id", "INTEGER"), ("distinct_id", "VARCHAR(200)")] }
  | some ("sessions") =>
    { requiresMerge := true
      mergeKey := [("team_id", "INT"), ("session_id", "TEXT")]
      updateKey := [("end_timestamp", "TIMESTAMP")]
      primaryKey := some [("team_id", "INTEGER"), ("session_id", "TEXT")] }
  | _ =>
    { requiresMerge := false, mergeKey := [], updateKey := [], primaryKey := none }

/-! ## Merge execution and error classification (lines 388-397, 851-891) -/

/-- Outcome of executing the merge statement against the database.
Modelled from the spec: PostgreSQL's `ON CONFLICT (cols…)` raises
`InvalidColumnReference` ("there is no unique or exclusion constraint
matching the ON CONFLICT specification") when the final table has no
primary key on those columns. -/
inductive MergeDbOutcome where
  | success
  | invalidColumnReference
deriving DecidableEq, Repr

/-- The state of the destination table the merge runs against: the column
set of its primary key, if it has one. -/
structure PgTableState where
  primaryKeyColumns : Option (List String)
deriving DecidableEq, Repr

/-- Modelled from the spec: how PostgreSQL answers the `INSERT … ON
CONFLICT (conflictColumns)` of the merge statement, given the final
table's primary key (`PostgreSQLClient.amerge_mutable_tables` itself only
observes success or `InvalidColumnReference`; the database side is not in
`src/`). -/
def execOnConflictInsert (finalTable : PgTableState) (conflictColumns : List String) :
    MergeDbOutcome :=
  match finalTable.primaryKeyColumns with
  | some pk => if pk = conflictColumns then .success else .invalidColumnReference
  | none => .invalidColumnReference

/-- The error surfaced by `amerge_mutable_tables` (line 397). -/
inductive MergeError where
  | missingPrimaryKeyError (table : String) (primaryKey : List String)
deriving DecidableEq, Repr

/-- Lines 394-397: run the merge statement; `psycopg.errors.InvalidColumnReference`
is caught and re-raised as `MissingPrimaryKeyError(final_table_identifier,
conflict_fields)`. -/
def amerge_mutable_tables_result (finalTable : PgTableState)
    (finalTableName : String) (mergeKey : List PgField) : Except MergeError Unit :=
  match execOnConflictInsert finalTable (mergeKey.map (fun f => f.1)) with
  | .success => .ok ()
  | .invalidColumnReference =>
    .error (.missingPrimaryKeyError finalTableName (mergeKey.map (fun f => f.1)))

/-- The `non_retryable_error_types` list the workflow passes to
`execute_batch_export_insert_activity` (lines 855-889), in source order. -/
def nonRetryableErrorTypes : List String :=
  ["OperationalError", "InvalidSchemaName", "InsufficientPrivilege",
   "NotNullViolation", "UniqueViolation", "UndefinedColumn",
   "StringDataRightTruncation", "DiskFull", "PostgreSQLConnectionError",
   "MissingPrimaryKeyError", "FeatureNotSupported", "CheckViolation",
   "ForeignKeyViolation", "UntranslatableCharacter"]

/-! ## Managed tables (`PostgreSQLClient.managed_table`, lines 281-315) and
the activity's table scopes (lines 724-775)

Table DDL is embedded as a trace of operations; a context-managed scope is
a function from the body's trace and outcome to the enclosing trace and
outcome.  The `try`/`finally` of `managed_table` makes the drop
unconditional in `delete = true` scopes, whether the body returned or
raised. -/

/-- An error escaping the consumer or the merge step; the activity's table
scopes pass it through. -/
inductive ActivityError where
  | consumerFailed
  | cancelled
deriving DecidableEq, Repr

/-- One database-side table operation, in the order executed. -/
inductive TableOp where
  | createTable (schema : List Char) (tableName : List Char)
      (fields : List (List Char × List Char)) (existsOk : Bool)
      (primaryKey : Option (List (List Char × List Char)))
  | dropTable (schema : List Char) (tableName : List Char) (notFoundOk : Bool)
  | copyToTable (tableName : List Char)
  | mergeTables (finalTableName : List Char) (stageTableName : List Char)
deriving DecidableEq, Repr

/-- `managed_table`: on entry, if `create`, the table is created with
`exists_ok` and the optional primary key; then the body runs; on exit
(the body's `try` is wrapped in `finally`), if `delete`, the table is
dropped with `not_found_ok`.  The body is its trace and outcome. -/
def managed_table (schema tableName : List Char)
    (fields : List (List Char × List Char))
    (primaryKey : Option (List (List Char × List Char)))
    (existsOk notFoundOk delete create : Bool)
    (body : List TableOp × Except ActivityError Unit) :
    List TableOp × Except ActivityError Unit :=
  ((if create then [TableOp.createTable schema tableName fields existsOk primaryKey]
    else []) ++
     body.1 ++
     (if delete then [TableOp.dropTable schema tableName notFoundOk] else []),
   body.2)

/-- Is the operation a `DROP TABLE`? -/
def TableOp.isDrop : TableOp → Bool
  | .dropTable _ _ _ => true
  | _ => false

/-- Is the operation a `CREATE TABLE`? -/
def TableOp.isCreate : TableOp → Bool
  | .createTable _ _ _ _ _ => true
  | _ => false

/-- The activity's two nested table scopes (lines 724-775): the final
table with `delete=False` (and default `create=True`, `exists_ok=True`)
and the staging table with `create=requires_merge`,
`delete=requires_merge`; inside both, the consumer body runs, and a
`finally` invokes the merge when `requires_merge`.  The consumer body is
given as the list of tables it COPYed into plus its outcome. -/
def insert_into_postgres_table_ops (schema tableName : List Char)
    (tableFields : List (List Char × List Char))
    (primaryKey : Option (List (List Char × List Char)))
    (requiresMerge : Bool) (d : PyDateTime) (teamId : Nat)
    (consumerCopies : List (List Char)) (consumerResult : Except ActivityError Unit) :
    List TableOp × Except ActivityError Unit :=
  let stagleName := stagle_table_name requiresMerge tableName d teamId
  managed_table schema tableName tableFields primaryKey true true false true
    (managed_table schema stagleName tableFields primaryKey true true
      requiresMerge requiresMerge
      (consumerCopies.map TableOp.copyToTable ++
        (if requiresMerge then [TableOp.mergeTables tableName stagleName] else []),
       consumerResult))

/-! ## Consumer flush (`PostgreSQLConsumer.flush`, lines 555-583) and
heartbeat details -/

/-- A date range as the heartbeat stores it: a pair of timestamps,
embedded as integers. -/
abbrev HbDateRange := Int × Int

/-- Modelled from the spec: `track_done_range`
(posthog/temporal/batch_exports/heartbeat.py, which is not under `src/`)
merges the flushed range into the done-range set, coalescing overlapping
and adjacent ranges, after clamping the range's lower bound to
`data_interval_start` when one is set. -/
def insertCoalesce (r : HbDateRange) : List HbDateRange → List HbDateRange
  | [] => [r]
  | q :: rest =>
    if r.2 < q.1 then r :: q :: rest
    else if q.2 < r.1 then q :: insertCoalesce r rest
    else insertCoalesce (min r.1 q.1, max r.2 q.2) rest

/-- Modelled from the spec: the heartbeat's `track_done_range`. -/
def track_done_range (lastDateRange : HbDateRange) (dataIntervalStart : Option Int)
    (doneRanges : List HbDateRange) : List HbDateRange :=
  let clamped : HbDateRange :=
    match dataIntervalStart with
    | some s => (max lastDateRange.1 s, lastDateRange.2)
    | none => lastDateRange
  insertCoalesce clamped doneRanges

/-- `BatchExportRangeHeartbeatDetails`: the progress the heartbeat carries. -/
structure HeartbeatDetails where
  doneRanges : List HbDateRange
  recordsCompleted : Nat
deriving DecidableEq, Repr

/-- The consumer's metric counters (`rows_exported_counter`,
`bytes_exported_counter`). -/
structure ConsumerMetrics where
  rowsExported : Nat
  bytesExported : Nat
deriving DecidableEq, Repr

/-- The consumer state `flush` mutates. -/
structure ConsumerState where
  heartbeatDetails : HeartbeatDetails
  metrics : ConsumerMetrics
deriving DecidableEq, Repr

/-- The COPY error `copy_tsv_to_postgres` may raise. -/
inductive CopyError where
  | copyFailed
deriving DecidableEq, Repr

/-- `PostgreSQLConsumer.flush`: it awaits `copy_tsv_to_postgres` (whose
outcome is the `copyResult` argument); only if that returns does it add
the flushed rows and bytes to the metric counters, advance
`records_completed` by `records_since_last_flush`, and merge
`last_date_range` into `done_ranges` via `track_done_range`.  If the COPY
raises, the exception propagates and the state is untouched. -/
def PostgreSQLConsumer_flush (copyResult : Except CopyError Unit)
    (st : ConsumerState) (recordsSinceLastFlush bytesSinceLastFlush : Nat)
    (lastDateRange : HbDateRange) (dataIntervalStart : Option Int) :
    Except CopyError Unit × ConsumerState :=
  match copyResult with
  | .error e => (.error e, st)
  | .ok _ =>
    (.ok (),
     { heartbeatDetails :=
         { doneRanges :=
             track_done_range lastDateRange dataIntervalStart
               st.heartbeatDetails.doneRanges
           recordsCompleted :=
             st.heartbeatDetails.recordsCompleted + recordsSinceLastFlush }
       metrics :=
         { rowsExported := st.metrics.rowsExported + recordsSinceLastFlush
           bytesExported := st.metrics.bytesExported + bytesSinceLastFlush } })

/-! ## Connection with retries (`PostgreSQLClient.connect`, lines 138-184) -/

/-- The outcome of one underlying `psycopg.AsyncConnection.connect` call.
Both `psycopg.OperationalError` and `psycopg.errors.ConnectionTimeout` are
in the wrapper's `retryable_exceptions`. -/
inductive ConnectAttemptOutcome where
  | ok
  | operationalError
  | connectTimeout
deriving DecidableEq, Repr

/-- The error `connect` raises once retries are exhausted. -/
inductive PgConnectError where
  | postgreSQLConnectionError (timedOut : Bool)
deriving DecidableEq, Repr

/-- Modelled from the spec: `make_retryable_with_exponential_backoff`
(posthog/temporal/batch_exports/utils.py, which is not under `src/`)
retries the wrapped call on a retryable outcome, sleeping an
exponentially growing delay between attempts, for at most `remaining`
total attempts; the last attempt's error is raised.  `attemptOutcomes k`
is the outcome of the (k+1)-th underlying call; the result records the
backoff delays slept and the final outcome. -/
def retryWithBackoffGo (attemptOutcomes : Nat → ConnectAttemptOutcome)
    (initialDelay : Nat) (k : Nat) : Nat → List Nat × ConnectAttemptOutcome
  | 0 => ([], attemptOutcomes k)
  | 1 => ([], attemptOutcomes k)
  | remaining + 2 =>
    match attemptOutcomes k with
    | .ok => ([], .ok)
    | _ =>
      let next := retryWithBackoffGo attemptOutcomes initialDelay (k + 1) (remaining + 1)
      (initialDelay * 2 ^ k :: next.1, next.2)

/-- `PostgreSQLClient.connect`: the underlying connect wrapped with
`make_retryable_with_exponential_backoff(max_attempts=5)`; a final
`ConnectionTimeout` or `OperationalError` is re-raised as
`PostgreSQLConnectionError` (with the timed-out message in the former
case). -/
def PostgreSQLClient_connect (attemptOutcomes : Nat → ConnectAttemptOutcome)
    (initialDelay : Nat) : List Nat × Except PgConnectError Unit :=
  let run := retryWithBackoffGo attemptOutcomes initialDelay 0 5
  match run.2 with
  | .ok => (run.1, .ok ())
  | .connectTimeout => (run.1, .error (.postgreSQLConnectionError true))
  | .operationalError => (run.1, .error (.postgreSQLConnectionError false))

/-! # Theorems -/

/-! ## Sanitizer lemmas -/

/-- Any list is a sublist of itself with material prepended. -/
theorem sublist_append_left_of_suffix {α : Type} (pre l : List α) : l.Sublist (pre ++ l) :=
  (List.suffix_append pre l).sublist

theorem nullUnicodeSub_sublist (prev : Option Nat) (l : List Nat) :
    (nullUnicodeSub prev l).Sublist l := by
  induction prev, l using nullUnicodeSub.induct with
  | case1 rest ih =>
    rw [nullUnicodeSub.eq_1, if_pos rfl]
    exact List.cons_sublist_cons.mpr ih
  | case2 prev rest hp ih =>
    rw [nullUnicodeSub.eq_1, if_neg hp]
    exact ih.trans (sublist_append_left_of_suffix [92, 117, 48, 48, 48, 48] rest)
  | case3 prev b rest hne ih =>
    rw [nullUnicodeSub.eq_2 prev b rest hne]
    exact List.cons_sublist_cons.mpr ih
  | case4 prev => rw [nullUnicodeSub.eq_3]

theorem unpairedSurrogateSub1_sublist (l : List Nat) :
    (unpairedSurrogateSub1 l).Sublist l := by
  induction l using unpairedSurrogateSub1.induct with
  | case1 b1 b2 b3 b4 b5 b6 c1 c2 c3 c4 c5 c6 rest2 h1 h2 ih =>
    rw [unpairedSurrogateSub1.eq_1, if_pos h1, if_pos h2]
    simp only [List.cons_sublist_cons]
    exact ih
  | case2 b1 b2 b3 b4 b5 b6 c1 c2 c3 c4 c5 c6 rest2 h1 h2 ih =>
    rw [unpairedSurrogateSub1.eq_1, if_pos h1, if_neg h2]
    exact ih.trans (sublist_append_left_of_suffix [b1, b2, b3, b4, b5, b6]
      (c1 :: c2 :: c3 :: c4 :: c5 :: c6 :: rest2))
  | case3 b1 b2 b3 b4 b5 b6 c1 c2 c3 c4 c5 c6 rest2 h1 ih =>
    rw [unpairedSurrogateSub1.eq_1, if_neg h1]
    exact List.cons_sublist_cons.mpr ih
  | case4 b1 b2 b3 b4 b5 b6 rest hshort h1 ih =>
    rw [unpairedSurrogateSub1.eq_2 b1 b2 b3 b4 b5 b6 rest hshort, if_pos h1]
    exact ih.trans (sublist_append_left_of_suffix [b1, b2, b3, b4, b5, b6] rest)
  | case5 b1 b2 b3 b4 b5 b6 rest hshort h1 ih =>
    rw [unpairedSurrogateSub1.eq_2 b1 b2 b3 b4 b5 b6 rest hshort, if_neg h1]
    exact List.cons_sublist_cons.mpr ih
  | case6 b rest hs12 hs6 ih =>
    rw [unpairedSurrogateSub1.eq_3 b rest hs12 hs6]
    exact List.cons_sublist_cons.mpr ih
  | case7 => rw [unpairedSurrogateSub1.eq_4]

theorem unpairedSurrogateSub2_sublist (l : List Nat) :
    (unpairedSurrogateSub2 l).Sublist l := by
  induction l using unpairedSurrogateSub2.induct with
  | case1 b1 b2 b3 b4 b5 b6 c1 c2 c3 c4 c5 c6 rest2 h1 h2 ih =>
    rw [unpairedSurrogateSub2.eq_1, if_pos h1, if_pos h2]
    simp only [List.cons_sublist_cons]
    exact ih
  | case2 b1 b2 b3 b4 b5 b6 c1 c2 c3 c4 c5 c6 rest2 h1 h2 h3 ih =>
    rw [unpairedSurrogateSub2.eq_1, if_pos h1, if_neg h2, if_pos h3]
    exact ih.trans (sublist_append_left_of_suffix [b1, b2, b3, b4, b5, b6]
      (c1 :: c2 :: c3 :: c4 :: c5 :: c6 :: rest2))
  | case3 b1 b2 b3 b4 b5 b6 c1 c2 c3 c4 c5 c6 rest2 h1 h2 h3 ih =>
    rw [unpairedSurrogateSub2.eq_1, if_pos h1, if_neg h2, if_neg h3]
    exact List.cons_sublist_cons.mpr ih
  | case4 b1 b2 b3 b4 b5 b6 c1 c2 c3 c4 c5 c6 rest2 h1 ih =>
    rw [unpairedSurrogateSub2.eq_1, if_neg h1]
    exact List.cons_sublist_cons.mpr ih
  | case5 b1 b2 b3 b4 b5 b6 rest hshort h1 ih =>
    rw [unpairedSurrogateSub2.eq_2 b1 b2 b3 b4 b5 b6 rest hshort, if_pos h1]
    exact ih.trans (sublist_append_left_of_suffix [b1, b2, b3, b4, b5, b6] rest)
  | case6 b1 b2 b3 b4 b5 b6 rest hshort h1 ih =>
    rw [unpairedSurrogateSub2.eq_2 b1 b2 b3 b4 b5 b6 rest hshort, if_neg h1]
    exact List.cons_sublist_cons.mpr ih
  | case7 b rest hs12 hs6 ih =>
    rw [unpairedSurrogateSub2.eq_3 b rest hs12 hs6]
    exact List.cons_sublist_cons.mpr ih
  | case8 => rw [unpairedSurrogateSub2.eq_4]

theorem remove_invalid_json_sublist (data : List Nat) :
    (remove_invalid_json data).Sublist data :=
  ((unpairedSurrogateSub2_sublist _).trans (unpairedSurrogateSub1_sublist _)).trans
    (nullUnicodeSub_sublist none data)

/-- A low-surrogate unit is in particular a surrogate unit (the class
[c-fC-F] is contained in [89A-Fa-f]). -/
theorem isLowUnit_isSurrUnit {b1 b2 b3 b4 b5 b6 : Nat}
    (h : isLowUnit b1 b2 b3 b4 b5 b6 = true) : isSurrUnit b1 b2 b3 b4 b5 b6 = true := by
  simp only [isLowUnit, isSurrUnit, isDByte, isLowSecondByte, isSurrSecondByte,
    isHexByte, Bool.and_eq_true, decide_eq_true_eq] at h ⊢
  omega

theorem nullUnicodeSub_of_no_match (prev : Option Nat) (l : List Nat)
    (h : hasNullUnicodeMatch prev l = false) : nullUnicodeSub prev l = l := by
  induction prev, l using nullUnicodeSub.induct with
  | case1 rest ih =>
    rw [hasNullUnicodeMatch.eq_1, if_pos rfl] at h
    rw [nullUnicodeSub.eq_1, if_pos rfl, ih h]
  | case2 prev rest hp ih =>
    rw [hasNullUnicodeMatch.eq_1, if_neg hp] at h
    exact absurd h (by simp)
  | case3 prev b rest hne ih =>
    rw [hasNullUnicodeMatch.eq_2 prev b rest hne] at h
    rw [nullUnicodeSub.eq_2 prev b rest hne, ih h]
  | case4 prev => rw [nullUnicodeSub.eq_3]

/-- When the scan head is not a surrogate unit, `unpairedSurrogateSub1`
keeps the head byte and advances one byte. -/
theorem unpairedSurrogateSub1_cons_of_not_surr (b1 b2 b3 b4 b5 b6 : Nat)
    (rest : List Nat) (h : ¬isSurrUnit b1 b2 b3 b4 b5 b6 = true) :
    unpairedSurrogateSub1 (b1 :: b2 :: b3 :: b4 :: b5 :: b6 :: rest) =
      b1 :: unpairedSurrogateSub1 (b2 :: b3 :: b4 :: b5 :: b6 :: rest) := by
  rcases rest with _ | ⟨c1, _ | ⟨c2, _ | ⟨c3, _ | ⟨c4, _ | ⟨c5, _ | ⟨c6, r2⟩⟩⟩⟩⟩⟩ <;>
    rw [unpairedSurrogateSub1] <;> simp [h]

/-- When the scan head is not a surrogate unit, `unpairedSurrogateSub2`
keeps the head byte and advances one byte. -/
theorem unpairedSurrogateSub2_cons_of_not_surr (b1 b2 b3 b4 b5 b6 : Nat)
    (rest : List Nat) (h : ¬isSurrUnit b1 b2 b3 b4 b5 b6 = true) :
    unpairedSurrogateSub2 (b1 :: b2 :: b3 :: b4 :: b5 :: b6 :: rest) =
      b1 :: unpairedSurrogateSub2 (b2 :: b3 :: b4 :: b5 :: b6 :: rest) := by
  have hlow : ¬isLowUnit b1 b2 b3 b4 b5 b6 = true := fun hl => h (isLowUnit_isSurrUnit hl)
  rcases rest with _ | ⟨c1, _ | ⟨c2, _ | ⟨c3, _ | ⟨c4, _ | ⟨c5, _ | ⟨c6, r2⟩⟩⟩⟩⟩⟩ <;>
    rw [unpairedSurrogateSub2] <;> simp [h, hlow]

theorem unpairedSurrogateSub1_of_no_surr (l : List Nat)
    (h : hasSurrUnitAt l = false) : unpairedSurrogateSub1 l = l := by
  induction l using hasSurrUnitAt.induct with
  | case1 b1 b2 b3 b4 b5 b6 rest ih =>
    rw [hasSurrUnitAt.eq_1, Bool.or_eq_false_iff] at h
    have hns : ¬isSurrUnit b1 b2 b3 b4 b5 b6 = true := by simp [h.1]
    rw [unpairedSurrogateSub1_cons_of_not_surr _ _ _ _ _ _ _ hns, ih h.2]
  | case2 b rest hshape ih =>
    rw [hasSurrUnitAt.eq_2 b rest hshape] at h
    rw [unpairedSurrogateSub1.eq_3 b rest
      (fun b2 b3 b4 b5 b6 c1 c2 c3 c4 c5 c6 rest2 heq =>
        hshape b2 b3 b4 b5 b6 (c1 :: c2 :: c3 :: c4 :: c5 :: c6 :: rest2) heq)
      hshape, ih h]
  | case3 => rw [unpairedSurrogateSub1.eq_4]

theorem unpairedSurrogateSub2_of_no_surr (l : List Nat)
    (h : hasSurrUnitAt l = false) : unpairedSurrogateSub2 l = l := by
  induction l using hasSurrUnitAt.induct with
  | case1 b1 b2 b3 b4 b5 b6 rest ih =>
    rw [hasSurrUnitAt.eq_1, Bool.or_eq_false_iff] at h
    have hns : ¬isSurrUnit b1 b2 b3 b4 b5 b6 = true := by simp [h.1]
    rw [unpairedSurrogateSub2_cons_of_not_surr _ _ _ _ _ _ _ hns, ih h.2]
  | case2 b rest hshape ih =>
    rw [hasSurrUnitAt.eq_2 b rest hshape] at h
    rw [unpairedSurrogateSub2.eq_3 b rest
      (fun b2 b3 b4 b5 b6 c1 c2 c3 c4 c5 c6 rest2 heq =>
        hshape b2 b3 b4 b5 b6 (c1 :: c2 :: c3 :: c4 :: c5 :: c6 :: rest2) heq)
      hshape, ih h]
  | case3 => rw [unpairedSurrogateSub2.eq_4]

/-! ## Claim C1 -/

/-- C1: the claim says every unpaired UTF-16 surrogate escape is removed;
but on the chunk `\uDC00\uDC00` — two whole 6-byte escape units, both
unpaired low surrogates — `remove_invalid_json` returns its input
unchanged, because the first alternative of both surrogate patterns
(meant to protect high-then-low pairs) classifies *any* `\uD8xx`-`\uDFxx`
unit as the leading element of a pair, the class [89A-Fa-f] containing
C-F.  Bytes: 92 `\`, 117 `u`, 68 `D`, 67 `C`, 48 `0`. -/
theorem c1_unpaired_low_surrogates_survive :
    remove_invalid_json [92, 117, 68, 67, 48, 48, 92, 117, 68, 67, 48, 48] =
      [92, 117, 68, 67, 48, 48, 92, 117, 68, 67, 48, 48] ∧
    isLowUnit 92 117 68 67 48 48 = true := by decide

/-! ## Claim C9 -/

/-- C9: `remove_invalid_json` only deletes: its output is a (not
necessarily contiguous) subsequence of the input, hence never longer; and
an input in which neither the NUL-escape regex nor the surrogate-escape
regexes have a match is returned unchanged. -/
theorem c9_remove_invalid_json_only_deletes (data : List Nat) :
    (remove_invalid_json data).Sublist data ∧
    (remove_invalid_json data).length ≤ data.length ∧
    (hasNullUnicodeMatch none data = false → hasSurrUnitAt data = false →
      remove_invalid_json data = data) := by
  refine ⟨remove_invalid_json_sublist data, (remove_invalid_json_sublist data).length_le, ?_⟩
  intro hnull hsurr
  unfold remove_invalid_json
  rw [nullUnicodeSub_of_no_match none data hnull,
    unpairedSurrogateSub1_of_no_surr data hsurr,
    unpairedSurrogateSub2_of_no_surr data hsurr]

/-- Witness for C9 at a concrete input with no regex matches. -/
theorem c9_witness :
    remove_invalid_json [104, 101, 108, 108, 111] = [104, 101, 108, 108, 111] :=
  (c9_remove_invalid_json_only_deletes [104, 101, 108, 108, 111]).2.2
    (by decide) (by decide)

/-! ## Claim C2 -/

/-- C2: in `PostgreSQLConsumer.flush`, `records_completed` is advanced by
the flushed row count and the flushed range is merged into `done_ranges`
via `track_done_range` only after `copy_tsv_to_postgres` returns; if the
COPY raises, the error propagates and the consumer state — in particular
both `records_completed` and `done_ranges` — is unchanged. -/
theorem c2_flush_updates_heartbeat_only_after_copy (st : ConsumerState)
    (records bytes : Nat) (lastDateRange : HbDateRange)
    (dataIntervalStart : Option Int) (e : CopyError) :
    (PostgreSQLConsumer_flush (.error e) st records bytes lastDateRange
        dataIntervalStart).2 = st ∧
    (PostgreSQLConsumer_flush (.error e) st records bytes lastDateRange
        dataIntervalStart).1 = .error e ∧
    (PostgreSQLConsumer_flush (.ok ()) st records bytes lastDateRange
          dataIntervalStart).2.heartbeatDetails.recordsCompleted =
      st.heartbeatDetails.recordsCompleted + records ∧
    (PostgreSQLConsumer_flush (.ok ()) st records bytes lastDateRange
          dataIntervalStart).2.heartbeatDetails.doneRanges =
      track_done_range lastDateRange dataIntervalStart st.heartbeatDetails.doneRanges :=
  ⟨rfl, rfl, rfl, rfl⟩

/-! ## Claim C5 -/

/-- C5: the merge statement built by `amerge_mutable_tables` is an
`INSERT … SELECT … FROM stage ON CONFLICT (merge key) DO UPDATE SET …`
whose WHERE condition is the OR-join, across the update-key columns, of
"the EXCLUDED column strictly greater than the final row's column"; and
for the `persons` model the activity derives merge key
`(team_id, distinct_id)` and update keys
`(person_version, person_distinct_id_version)`. -/
theorem c5_merge_statement_and_persons_keys
    (finalTableName stageTableName schema : String)
    (mergeKey updateKey updateWhenMatched : List PgField) :
    amerge_mutable_tables_query finalTableName stageTableName schema
        mergeKey updateKey updateWhenMatched =
      "        INSERT INTO " ++
        (if schema.isEmpty then pgIdentifier [finalTableName]
         else pgIdentifier [schema, finalTableName]) ++
        " AS final (" ++
        String.intercalate "," (updateWhenMatched.map (fun f => pgIdentifier [f.1])) ++
        ")\n" ++
      "        SELECT " ++
        String.intercalate "," (updateWhenMatched.map (fun f => pgIdentifier [f.1])) ++
        " FROM " ++
        (if schema.isEmpty then pgIdentifier [stageTableName]
         else pgIdentifier [schema, stageTableName]) ++ "\n" ++
      "        ON CONFLICT (" ++
        String.intercalate "," (mergeKey.map (fun f => pgIdentifier [f.1])) ++
        ") DO UPDATE SET\n" ++
      "            " ++
        String.intercalate ","
          (updateWhenMatched.map (fun f =>
            pgIdentifier [f.1] ++ " = EXCLUDED." ++ pgIdentifier [f.1])) ++ "\n" ++
      "        WHERE (" ++ claimC5UpdateCondition updateKey ++ ")\n" ++
      "        " ∧
    (resolveMergeParams (some ("persons"))).requiresMerge = true ∧
    (resolveMergeParams (some ("persons"))).mergeKey =
      [("team_id", "INT"), ("distinct_id", "TEXT")] ∧
    (resolveMergeParams (some ("persons"))).updateKey =
      [("person_version", "INT"), ("person_distinct_id_version", "INT")] :=
  ⟨rfl, rfl, rfl, rfl⟩

/-! ## Claim C6 -/

/-- C6: a merge attempted against a final table lacking a primary key on
the merge-key columns raises `MissingPrimaryKeyError`, and that error kind
is in the workflow's non-retryable list. -/
theorem c6_missing_primary_key_not_retryable (finalTable : PgTableState)
    (finalTableName : String) (mergeKey : List PgField)
    (h : finalTable.primaryKeyColumns = none) :
    amerge_mutable_tables_result finalTable finalTableName mergeKey =
      .error (.missingPrimaryKeyError finalTableName (mergeKey.map (fun f => f.1))) ∧
    "MissingPrimaryKeyError" ∈ nonRetryableErrorTypes := by
  constructor
  · simp [amerge_mutable_tables_result, execOnConflictInsert, h]
  · simp [nonRetryableErrorTypes]

/-- Witness for C6: a concrete primary-key-less table with the persons
merge key. -/
theorem c6_witness :
    amerge_mutable_tables_result (PgTableState.mk none) ("events")
        [("team_id", "INT"), ("distinct_id", "TEXT")] =
      .error (.missingPrimaryKeyError ("events") ["team_id", "distinct_id"]) ∧
    "MissingPrimaryKeyError" ∈ nonRetryableErrorTypes :=
  c6_missing_primary_key_not_retryable (PgTableState.mk none) ("events")
    [("team_id", "INT"), ("distinct_id", "TEXT")] rfl

/-! ## Claim C7 -/

/-- C7: in every `managed_table` scope the body's outcome is passed
through unchanged; when `create` is true the first operation of the scope
is the `CREATE TABLE` with the given `exists_ok` and primary key; and when
`delete` is true the last operation is the `DROP TABLE` with
`not_found_ok`, whether the body completed successfully or raised (the
body outcome is arbitrary). -/
theorem c7_managed_table_creates_then_drops (schema tableName : List Char)
    (fields : List (List Char × List Char))
    (primaryKey : Option (List (List Char × List Char)))
    (existsOk notFoundOk delete create : Bool)
    (body : List TableOp × Except ActivityError Unit) :
    (managed_table schema tableName fields primaryKey existsOk notFoundOk
        delete create body).2 = body.2 ∧
    (create = true →
      (managed_table schema tableName fields primaryKey existsOk notFoundOk
          delete create body).1.head? =
        some (TableOp.createTable schema tableName fields existsOk primaryKey)) ∧
    (delete = true →
      (managed_table schema tableName fields primaryKey existsOk notFoundOk
          delete create body).1.getLast? =
        some (TableOp.dropTable schema tableName notFoundOk)) ∧
    (create = false → delete = false →
      (managed_table schema tableName fields primaryKey existsOk notFoundOk
          delete create body).1 = body.1) := by
  refine ⟨rfl, ?_, ?_, ?_⟩
  · intro hc
    subst hc
    simp [managed_table]
  · intro hd
    subst hd
    have : (managed_table schema tableName fields primaryKey existsOk notFoundOk
        true create body).1 =
      ((if create then
          [TableOp.createTable schema tableName fields existsOk primaryKey]
        else []) ++ body.1) ++ [TableOp.dropTable schema tableName notFoundOk] := by
      simp [managed_table]
    rw [this, List.getLast?_concat]
  · intro hc hd
    subst hc
    subst hd
    simp [managed_table]

/-- Witness for C7 with a body that raised: the drop still closes the
scope and the create opens it. -/
theorem c7_witness :
    (managed_table ['p'] ['t'] [] none true true true true
        ([TableOp.copyToTable ['t']], Except.error ActivityError.consumerFailed)).2 =
      Except.error ActivityError.consumerFailed ∧
    (managed_table ['p'] ['t'] [] none true true true true
        ([TableOp.copyToTable ['t']], Except.error ActivityError.consumerFailed)).1.head? =
      some (TableOp.createTable ['p'] ['t'] [] true none) ∧
    (managed_table ['p'] ['t'] [] none true true true true
        ([TableOp.copyToTable ['t']], Except.error ActivityError.consumerFailed)).1.getLast? =
      some (TableOp.dropTable ['p'] ['t'] true) := by
  have h := c7_managed_table_creates_then_drops ['p'] ['t'] [] none true true true true
    ([TableOp.copyToTable ['t']], Except.error ActivityError.consumerFailed)
  exact ⟨h.1, h.2.1 rfl, h.2.2.1 rfl⟩

/-! ## Claim C3 -/

theorem digitChar_utf8Size (n : Nat) : (digitChar n).utf8Size = 1 := by
  unfold digitChar
  split <;> try decide
  split <;> try decide
  split <;> try decide
  split <;> try decide
  split <;> try decide
  split <;> try decide
  split <;> try decide
  split <;> try decide
  split <;> decide

theorem natDigitsGo_ascii (fuel : Nat) :
    ∀ (n : Nat) (acc : List Char), (∀ c ∈ acc, c.utf8Size = 1) →
      ∀ c ∈ natDigitsGo fuel n acc, c.utf8Size = 1 := by
  induction fuel with
  | zero => intro n acc hacc; exact hacc
  | succ fuel ih =>
    intro n acc hacc c hc
    rw [natDigitsGo] at hc
    by_cases hn : n < 10
    · rw [if_pos hn] at hc
      rcases List.mem_cons.mp hc with h | h
      · rw [h]; exact digitChar_utf8Size n
      · exact hacc c h
    · rw [if_neg hn] at hc
      refine ih (n / 10) (digitChar n :: acc) ?_ c hc
      intro d hd
      rcases List.mem_cons.mp hd with h | h
      · rw [h]; exact digitChar_utf8Size n
      · exact hacc d h

theorem natDigits_ascii (n : Nat) : ∀ c ∈ natDigits n, c.utf8Size = 1 :=
  natDigitsGo_ascii (n + 1) n [] (by intro c hc; cases hc)

theorem pad2_ascii (n : Nat) : ∀ c ∈ pad2 n, c.utf8Size = 1 := by
  intro c hc
  unfold pad2 at hc
  by_cases hn : n < 10
  · rw [if_pos hn] at hc
    rcases List.mem_cons.mp hc with h | h
    · rw [h]; decide
    · exact natDigits_ascii n c h
  · rw [if_neg hn] at hc
    exact natDigits_ascii n c hc

theorem pad4_ascii (n : Nat) : ∀ c ∈ pad4 n, c.utf8Size = 1 := by
  intro c hc
  unfold pad4 at hc
  split at hc
  · rcases List.mem_cons.mp hc with h | hc
    · rw [h]; decide
    rcases List.mem_cons.mp hc with h | hc
    · rw [h]; decide
    rcases List.mem_cons.mp hc with h | hc
    · rw [h]; decide
    exact natDigits_ascii n c hc
  split at hc
  · rcases List.mem_cons.mp hc with h | hc
    · rw [h]; decide
    rcases List.mem_cons.mp hc with h | hc
    · rw [h]; decide
    exact natDigits_ascii n c hc
  split at hc
  · rcases List.mem_cons.mp hc with h | hc
    · rw [h]; decide
    exact natDigits_ascii n c hc
  exact natDigits_ascii n c hc

/-- All-ASCII is preserved by list append. -/
theorem ascii_append {s t : List Char} (hs : ∀ c ∈ s, c.utf8Size = 1)
    (ht : ∀ c ∈ t, c.utf8Size = 1) : ∀ c ∈ s ++ t, c.utf8Size = 1 := by
  intro c hc
  rcases List.mem_append.mp hc with h | h
  · exact hs c h
  · exact ht c h

/-- All-ASCII is preserved by consing an ASCII character. -/
theorem ascii_cons {a : Char} {t : List Char} (ha : a.utf8Size = 1)
    (ht : ∀ c ∈ t, c.utf8Size = 1) : ∀ c ∈ a :: t, c.utf8Size = 1 := by
  intro c hc
  rcases List.mem_cons.mp hc with h | h
  · rw [h]; exact ha
  · exact ht c h

theorem strftimeSuffix_ascii (d : PyDateTime) :
    ∀ c ∈ strftimeSuffix d, c.utf8Size = 1 := by
  unfold strftimeSuffix
  refine ascii_append (ascii_append (ascii_append (ascii_append
    (ascii_append (pad4_ascii _) ?_) ?_) ?_) ?_) ?_
  all_goals exact ascii_cons (by decide) (pad2_ascii _)

theorem utf8Len_eq_length_of_ascii (s : List Char)
    (h : ∀ c ∈ s, c.utf8Size = 1) : utf8Len s = s.length := by
  induction s with
  | nil => rfl
  | cons c cs ih =>
    have hc : c.utf8Size = 1 := h c (List.mem_cons_self c cs)
    have hcs := ih (fun d hd => h d (List.mem_cons_of_mem c hd))
    simp [utf8Len, hc] at hcs ⊢
    omega

/-- C3 counterexample: with a table name of 63 two-byte characters the
staging identifier is truncated to 63 *characters*, not 63 bytes — its
UTF-8 length is 120 bytes, exceeding the PostgreSQL identifier limit the
claim asserts. -/
theorem c3_counterexample_staging_name_over_63_bytes :
    63 < utf8Len (stagle_table_name true (List.replicate 63 'é')
      (PyDateTime.mk 2024 1 1 0 0 0) 42) := by decide

/-- C3 amended: when a merge is required the staging name is the
`stage_<table>_<YYYY-MM-DD_HH-MM-SS>_<team_id>` format string truncated to
63 **characters** (Python's `[:63]` slices code points); hence it is at
most 63 characters long, and at most 63 **bytes** whenever the table name
consists of single-byte (ASCII) characters. -/
theorem c3_staging_name_truncated_to_63_chars (tableName : List Char)
    (d : PyDateTime) (teamId : Nat) :
    stagle_table_name true tableName d teamId =
      (stageLit ++ tableName ++ '_' :: strftimeSuffix d ++
        '_' :: natDigits teamId).take 63 ∧
    (stagle_table_name true tableName d teamId).length ≤ 63 ∧
    ((∀ c ∈ tableName, c.utf8Size = 1) →
      utf8Len (stagle_table_name true tableName d teamId) ≤ 63) := by
  refine ⟨rfl, ?_, ?_⟩
  · rw [stagle_table_name, if_pos rfl, List.length_take]
    exact min_le_left _ _
  · intro hascii
    have hall : ∀ c ∈ stageLit ++ tableName ++ '_' :: strftimeSuffix d ++
        '_' :: natDigits teamId, c.utf8Size = 1 :=
      ascii_append
        (ascii_append (ascii_append (by decide) hascii)
          (ascii_cons (by decide) (strftimeSuffix_ascii d)))
        (ascii_cons (by decide) (natDigits_ascii teamId))
    have htake : ∀ c ∈ stagle_table_name true tableName d teamId, c.utf8Size = 1 := by
      intro c hc
      rw [stagle_table_name, if_pos rfl] at hc
      exact hall c (List.mem_of_mem_take hc)
    rw [utf8Len_eq_length_of_ascii _ htake]
    rw [stagle_table_name, if_pos rfl, List.length_take]
    exact min_le_left _ _

/-- Witness for C3's amended claim at an ASCII table name. -/
theorem c3_witness :
    utf8Len (stagle_table_name true ['e', 'v', 'e', 'n', 't', 's']
      (PyDateTime.mk 2024 6 1 12 30 0) 12345) ≤ 63 :=
  (c3_staging_name_truncated_to_63_chars ['e', 'v', 'e', 'n', 't', 's']
    (PyDateTime.mk 2024 6 1 12 30 0) 12345).2.2 (by decide)

/-! ## Claim C4 -/

/-- C4 counterexample: the claim's catch-all ("any other type fails with
`UnsupportedType`") is false for the `JsonType` extension type, which the
source handles together with `string` (line 484): a json-typed field maps
to JSONB/TEXT instead of failing. -/
theorem c4_counterexample_json_type :
    get_postgres_fields_from_record_schema
        [PaField.mk ("properties") PaType.json] knownJsonColumnsDefault ≠
      claimC4Mapping [PaField.mk ("properties") PaType.json] knownJsonColumnsDefault ∧
    get_postgres_fields_from_record_schema
        [PaField.mk ("properties") PaType.json] knownJsonColumnsDefault =
      .ok [("properties", "JSONB")] ∧
    claimC4Mapping [PaField.mk ("properties") PaType.json] knownJsonColumnsDefault =
      .error (.unsupportedType ("properties") PaType.json) := by
  refine ⟨?_, rfl, rfl⟩
  intro h
  rw [show get_postgres_fields_from_record_schema
        [PaField.mk ("properties") PaType.json] knownJsonColumnsDefault =
      .ok [("properties", "JSONB")] from rfl,
    show claimC4Mapping [PaField.mk ("properties") PaType.json] knownJsonColumnsDefault =
      .error (.unsupportedType ("properties") PaType.json) from rfl] at h
  exact Except.noConfusion h

/-- C4 amended: `get_postgres_fields_from_record_schema` maps each field
in order exactly as the claim says, with one amendment: a field whose type
is the JSON extension type is treated like a `string` field (JSONB when
its name is in the known-JSON set, TEXT otherwise); every type outside the
enumerated ones fails with `UnsupportedType(name, type)`. -/
theorem c4_schema_mapping_amended (recordSchema : List PaField)
    (knownJsonColumns : List String) :
    get_postgres_fields_from_record_schema recordSchema knownJsonColumns =
      amendedC4Mapping recordSchema knownJsonColumns := by
  induction recordSchema with
  | nil => rfl
  | cons f rest ih =>
    have hf : postgresTypeOfField f knownJsonColumns =
        amendedC4TypeOfField f knownJsonColumns := by
      rcases f with ⟨name, t⟩
      cases t
      case timestamp tz =>
        cases tz <;>
          simp [postgresTypeOfField, amendedC4TypeOfField, PaType.isString,
            PaType.isJson, PaType.isSignedInteger, PaType.isUnsignedInteger,
            PaType.isInt64, PaType.isUint64, PaType.isFloating, PaType.isFloat64,
            PaType.isBoolean, PaType.isTimestamp, PaType.timestampTz,
            PaType.isList, PaType.valueType]
      case list v =>
        cases v <;>
          simp [postgresTypeOfField, amendedC4TypeOfField, PaType.isString,
            PaType.isJson, PaType.isSignedInteger, PaType.isUnsignedInteger,
            PaType.isInt64, PaType.isUint64, PaType.isFloating, PaType.isFloat64,
            PaType.isBoolean, PaType.isTimestamp, PaType.timestampTz,
            PaType.isList, PaType.valueType]
      all_goals
        simp [postgresTypeOfField, amendedC4TypeOfField, PaType.isString,
          PaType.isJson, PaType.isSignedInteger, PaType.isUnsignedInteger,
          PaType.isInt64, PaType.isUint64, PaType.isFloating, PaType.isFloat64,
          PaType.isBoolean, PaType.isTimestamp, PaType.timestampTz,
          PaType.isList, PaType.valueType]
    rw [get_postgres_fields_from_record_schema, amendedC4Mapping, hf, ih]

/-! ## Claim C8 -/

/-- When every attempt fails with a retryable error, the retry loop makes
exactly `remaining` attempts, sleeps the exponentially growing backoff
before each retry, and ends with the last attempt's outcome. -/
theorem retryWithBackoffGo_exhausts (attemptOutcomes : Nat → ConnectAttemptOutcome)
    (initialDelay : Nat) :
    ∀ remaining k, 1 ≤ remaining →
      (∀ j, j < remaining → attemptOutcomes (k + j) ≠ .ok) →
      retryWithBackoffGo attemptOutcomes initialDelay k remaining =
        ((List.range (remaining - 1)).map (fun i => initialDelay * 2 ^ (k + i)),
          attemptOutcomes (k + (remaining - 1))) := by
  intro remaining
  induction remaining with
  | zero => intro k h1 _; omega
  | succ m ih =>
    intro k h1 hfail
    match m with
    | 0 => simp [retryWithBackoffGo]
    | m' + 1 =>
      have h0 : attemptOutcomes (k + 0) ≠ .ok := hfail 0 (by omega)
      have hrec := ih (k + 1) (by omega)
        (fun j hj => by
          have := hfail (j + 1) (by omega)
          simpa [Nat.add_assoc, Nat.add_comm 1 j] using this)
      rw [retryWithBackoffGo]
      rcases hk : attemptOutcomes k with _ | _ | _
      · exact absurd (by simpa using hk) h0
      all_goals
        simp only [hk]
        rw [hrec]
        refine congrArg₂ Prod.mk ?_ (congrArg attemptOutcomes (by omega))
        rw [show (m' + 1 + 1 : Nat) - 1 = m' + 1 from rfl,
          show (m' + 1 : Nat) - 1 = m' from rfl,
          List.range_succ_eq_map, List.map_cons, List.map_map]
        refine congrArg₂ List.cons (by simp) ?_
        refine congrArg₂ List.map ?_ rfl
        funext i
        simp only [Function.comp]
        congr 1
        congr 1
        omega

/-- C8: `PostgreSQLClient.connect` makes up to 5 underlying connection
attempts with exponential backoff between them when they keep failing with
transient errors (operational error or connect timeout), and raises
`PostgreSQLConnectionError` once those retries are exhausted. -/
theorem c8_connect_exhausts_retries (attemptOutcomes : Nat → ConnectAttemptOutcome)
    (initialDelay : Nat) (h : ∀ j, j < 5 → attemptOutcomes j ≠ .ok) :
    (PostgreSQLClient_connect attemptOutcomes initialDelay).1 =
      [initialDelay * 2 ^ 0, initialDelay * 2 ^ 1, initialDelay * 2 ^ 2,
        initialDelay * 2 ^ 3] ∧
    ∃ timedOut, (PostgreSQLClient_connect attemptOutcomes initialDelay).2 =
      .error (.postgreSQLConnectionError timedOut) := by
  have hrun := retryWithBackoffGo_exhausts attemptOutcomes initialDelay 5 0
    (by omega) (fun j hj => by simpa using h j hj)
  have h4 : attemptOutcomes 4 ≠ .ok := h 4 (by omega)
  have hdelays : (List.range 4).map (fun i => initialDelay * 2 ^ (0 + i)) =
      [initialDelay * 2 ^ 0, initialDelay * 2 ^ 1, initialDelay * 2 ^ 2,
        initialDelay * 2 ^ 3] := by
    simp [List.range_succ]
  rw [PostgreSQLClient_connect, hrun]
  rcases hk : attemptOutcomes (0 + (5 - 1)) with _ | _ | _
  · exact absurd (by simpa using hk) h4
  · exact ⟨by simpa using hdelays, false, rfl⟩
  · exact ⟨by simpa using hdelays, true, rfl⟩

/-- Witness for C8: every attempt raising an operational error. -/
theorem c8_witness :
    (PostgreSQLClient_connect (fun _ => .operationalError) 7).1 =
      [7 * 2 ^ 0, 7 * 2 ^ 1, 7 * 2 ^ 2, 7 * 2 ^ 3] ∧
    ∃ timedOut, (PostgreSQLClient_connect (fun _ => .operationalError) 7).2 =
      .error (.postgreSQLConnectionError timedOut) :=
  c8_connect_exhausts_retries (fun _ => .operationalError) 7
    (fun j _ => by simp)

/-! ## Claim C10 -/

/-- COPY operations are never drops. -/
theorem filter_isDrop_copies (copies : List (List Char)) :
    (copies.map TableOp.copyToTable).filter TableOp.isDrop = [] := by
  induction copies with
  | nil => rfl
  | cons c cs ih => simp [TableOp.isDrop, ih]

/-- COPY operations are never creates. -/
theorem filter_isCreate_copies (copies : List (List Char)) :
    (copies.map TableOp.copyToTable).filter TableOp.isCreate = [] := by
  induction copies with
  | nil => rfl
  | cons c cs ih => simp [TableOp.isCreate, ih]

/-- C10: `insert_into_postgres_activity` acquires the final destination
table with `delete=False`; on every exit path (the consumer outcome is
arbitrary) the only `DROP TABLE` the activity issues is of the staging
identifier, and only when the model requires a merge; a `DROP` of the
final table name never occurs (given the staging identifier differs from
it); and the staging identifier is created exactly when a merge is
required, the final table always. -/
theorem c10_final_table_never_dropped (schema tableName : List Char)
    (tableFields : List (List Char × List Char))
    (primaryKey : Option (List (List Char × List Char)))
    (requiresMerge : Bool) (d : PyDateTime) (teamId : Nat)
    (consumerCopies : List (List Char)) (consumerResult : Except ActivityError Unit)
    (hname : requiresMerge = true →
      tableName ≠ stagle_table_name true tableName d teamId) :
    ((insert_into_postgres_table_ops schema tableName tableFields primaryKey
        requiresMerge d teamId consumerCopies consumerResult).1.filter TableOp.isDrop =
      if requiresMerge then
        [TableOp.dropTable schema (stagle_table_name true tableName d teamId) true]
      else []) ∧
    (∀ notFoundOk, TableOp.dropTable schema tableName notFoundOk ∉
      (insert_into_postgres_table_ops schema tableName tableFields primaryKey
        requiresMerge d teamId consumerCopies consumerResult).1) ∧
    ((insert_into_postgres_table_ops schema tableName tableFields primaryKey
        requiresMerge d teamId consumerCopies consumerResult).1.filter TableOp.isCreate =
      TableOp.createTable schema tableName tableFields true primaryKey ::
        (if requiresMerge then
          [TableOp.createTable schema (stagle_table_name true tableName d teamId)
            tableFields true primaryKey]
        else [])) ∧
    (insert_into_postgres_table_ops schema tableName tableFields primaryKey
        requiresMerge d teamId consumerCopies consumerResult).2 = consumerResult := by
  have hfilter : (insert_into_postgres_table_ops schema tableName tableFields primaryKey
      requiresMerge d teamId consumerCopies consumerResult).1.filter TableOp.isDrop =
      if requiresMerge then
        [TableOp.dropTable schema (stagle_table_name true tableName d teamId) true]
      else [] := by
    cases requiresMerge <;>
      simp [insert_into_postgres_table_ops, managed_table, List.filter_append,
        filter_isDrop_copies, TableOp.isDrop]
  refine ⟨hfilter, ?_, ?_, rfl⟩
  · intro notFoundOk hmem
    have hdropmem : TableOp.dropTable schema tableName notFoundOk ∈
        (insert_into_postgres_table_ops schema tableName tableFields primaryKey
          requiresMerge d teamId consumerCopies consumerResult).1.filter TableOp.isDrop :=
      List.mem_filter.mpr ⟨hmem, rfl⟩
    rw [hfilter] at hdropmem
    cases requiresMerge with
    | false => simp at hdropmem
    | true =>
      simp only [if_true, List.mem_singleton, TableOp.dropTable.injEq] at hdropmem
      exact hname rfl hdropmem.2.1
  · cases requiresMerge <;>
      simp [insert_into_postgres_table_ops, managed_table, List.filter_append,
        filter_isCreate_copies, TableOp.isCreate]

/-- Witness for C10 in the merge case with a failing consumer. -/
theorem c10_witness :
    ((insert_into_postgres_table_ops ['p'] ['e'] [] none true
        (PyDateTime.mk 2024 1 1 0 0 0) 1 [['s']]
        (Except.error ActivityError.consumerFailed)).1.filter TableOp.isDrop =
      [TableOp.dropTable ['p']
        (stagle_table_name true ['e'] (PyDateTime.mk 2024 1 1 0 0 0) 1) true]) ∧
    (∀ notFoundOk, TableOp.dropTable ['p'] ['e'] notFoundOk ∉
      (insert_into_postgres_table_ops ['p'] ['e'] [] none true
        (PyDateTime.mk 2024 1 1 0 0 0) 1 [['s']]
        (Except.error ActivityError.consumerFailed)).1) := by
  have h := c10_final_table_never_dropped ['p'] ['e'] [] none true
    (PyDateTime.mk 2024 1 1 0 0 0) 1 [['s']]
    (Except.error ActivityError.consumerFailed) (fun _ => by decide)
  exact ⟨by simpa using h.1, h.2.1⟩
